import Mathlib

/-!
Verification of the invoice / inventory ledger of `inventory_billing_app1.py`
(and the earlier non-reconciling variant `inventory_billing_app.py`).

Monetary values (Python floats) are embedded as rationals `ℚ`; SQLite tables
are embedded as Lean lists of row structures, and one `create_invoice` call is
embedded as a pure state transformer on that database value.  Generated SQL
columns (`closing_balance`, `stock_remaining`, line `amount`) are computed at
insert time from the formulas declared in the schema.
-/

namespace InvBill

/-- One element of the `lines` argument of `create_invoice`
(a dict with keys item, unit_price, qty, units, highlight). -/
structure Line where
  item : String
  unit_price : ℚ
  qty : ℚ
  units : String
  highlight : Bool
deriving Repr, DecidableEq

/-- One element of the `collections` argument (a dict with keys method, amount). -/
structure CollectionEntry where
  method : String
  amount : ℚ
deriving Repr, DecidableEq

/-- One element of the `dues` argument (a dict with keys shop_no, amount). -/
structure DueEntry where
  shop_no : String
  amount : ℚ
deriving Repr, DecidableEq

/-- A row of the `invoices` table. -/
structure InvoiceRow where
  id : Nat
  date : String
  person_name : String
  total_amount : ℚ
  collection_amount : ℚ
  due_amount : ℚ
  notes : String
deriving Repr, DecidableEq

/-- A row of the `invoice_lines` table (app1 schema, with `highlight`).
`amount` is the generated column `unit_price * qty` declared in the schema. -/
structure InvoiceLineRow where
  invoice_id : Nat
  line_no : Nat
  item : String
  unit_price : ℚ
  qty : ℚ
  units : String
  highlight : Nat
  amount : ℚ
deriving Repr, DecidableEq

/-- A row of the `invoice_collections` table. -/
structure InvoiceCollectionRow where
  invoice_id : Nat
  method : String
  amount : ℚ
deriving Repr, DecidableEq

/-- A row of the `invoice_dues` table. -/
structure InvoiceDueRow where
  invoice_id : Nat
  shop_no : String
  amount : ℚ
deriving Repr, DecidableEq

/-- A row of the legacy daily-aggregate `collections` table. -/
structure CollectionRow where
  date : String
  amount : ℚ
  note : String
deriving Repr, DecidableEq

/-- The mutable database state touched by `create_invoice` in
`inventory_billing_app1.py`: the five tables it writes, plus the
AUTOINCREMENT counter that yields `cur.lastrowid` for `invoices`. -/
structure DB where
  invoices : List InvoiceRow
  invoice_lines : List InvoiceLineRow
  invoice_collections : List InvoiceCollectionRow
  invoice_dues : List InvoiceDueRow
  collections : List CollectionRow
  next_invoice_id : Nat
deriving Repr, DecidableEq

/-- The empty database (fresh schema, AUTOINCREMENT starts at 1). -/
def emptyDB : DB :=
  { invoices := [], invoice_lines := [], invoice_collections := [],
    invoice_dues := [], collections := [], next_invoice_id := 1 }

/-- Source line 250, `total = sum(float(l.get("unit_price", 0)) * float(l.get("qty", 0)) for l in lines)`:
the sum runs over all submitted lines, with no filtering. -/
def lineTotal (lines : List Line) : ℚ :=
  (lines.map fun l => l.unit_price * l.qty).sum

/-- Source line 251, `coll_total = sum(float(c.get("amount", 0)) for c in collections)`:
the sum runs over all entries, with no positivity filter. -/
def collTotal (collections : List CollectionEntry) : ℚ :=
  (collections.map fun c => c.amount).sum

/-- Source line 252, `due_total = sum(float(d.get("amount", 0)) for d in dues)`. -/
def dueTotal (dues : List DueEntry) : ℚ :=
  (dues.map fun d => d.amount).sum

/-- The `invoice_lines` rows inserted by the loop
`for i, line in enumerate(lines, start=1): if not line.get("item"): continue ...`,
threading the running index `i`: empty-item lines are skipped (but still
consume an index), every other line is stored, whatever its quantity;
`highlight` is stored as `1 if line.get("highlight") else 0` and `amount` is
the generated column `unit_price * qty`. -/
def invoiceLineRowsFrom (inv_id : Nat) : Nat → List Line → List InvoiceLineRow
  | _, [] => []
  | i, l :: ls =>
    (if l.item = "" then [] else
      [{ invoice_id := inv_id, line_no := i, item := l.item,
         unit_price := l.unit_price, qty := l.qty, units := l.units,
         highlight := if l.highlight then 1 else 0,
         amount := l.unit_price * l.qty }]) ++ invoiceLineRowsFrom inv_id (i + 1) ls

/-- All `invoice_lines` rows of one invoice (`enumerate(lines, start=1)`). -/
def invoiceLineRows (inv_id : Nat) (lines : List Line) : List InvoiceLineRow :=
  invoiceLineRowsFrom inv_id 1 lines

/-- The `method` actually stored for a collection entry:
`method = "Cash" if c.get("method") not in ("Cash","UPI") else c["method"]`. -/
def storedMethod (m : String) : String :=
  if m = "Cash" ∨ m = "UPI" then m else "Cash"

/-- The `invoice_collections` rows inserted by the loop over `collections`:
non-positive amounts are skipped, out-of-set methods are coerced to `"Cash"`. -/
def invoiceCollectionRows (inv_id : Nat) (collections : List CollectionEntry) :
    List InvoiceCollectionRow :=
  collections.filterMap fun c =>
    if c.amount ≤ 0 then none
    else some { invoice_id := inv_id, method := storedMethod c.method, amount := c.amount }

/-- The `invoice_dues` rows inserted by the loop over `dues`: non-positive
amounts are skipped; `shop_no` is stored stripped.  There is no non-empty
check on the shop number. -/
def invoiceDueRows (inv_id : Nat) (dues : List DueEntry) : List InvoiceDueRow :=
  dues.filterMap fun d =>
    if d.amount ≤ 0 then none
    else some { invoice_id := inv_id, shop_no := d.shop_no.trim, amount := d.amount }

/-- The note of the legacy aggregate row:
`f"Invoice #{inv_id} - {person_name}"` (line 296). -/
def aggregateNote (inv_id : Nat) (person_name : String) : String :=
  "Invoice #" ++ toString inv_id ++ " - " ++ person_name

/-- The legacy `collections` rows inserted at lines 292-297: one row when
`coll_total != 0`, none otherwise. -/
def aggregateRows (inv_id : Nat) (date : String) (person_name : String)
    (coll_total : ℚ) : List CollectionRow :=
  if coll_total ≠ 0 then
    [{ date := date, amount := coll_total, note := aggregateNote inv_id person_name }]
  else []

/-- The `(ok, message, invoice_id)` triple returned by `create_invoice`. -/
structure InvoiceResult where
  ok : Bool
  msg : String
  invoice_id : Int
deriving Repr, DecidableEq

/-- Two-decimal rendering of a monetary figure, embedding the Python format
specifier `.2f` used in the failure message (nearest-hundredth rounding of the
rational value; the exact tie-breaking of CPython float formatting is
abstracted). -/
def fmt2 (q : ℚ) : String :=
  let c : ℤ := round (|q| * 100)
  let frac := c % 100
  let s := toString (c / 100) ++ "." ++ (if frac < 10 then "0" else "") ++ toString frac
  if q < 0 then "-" ++ s else s

/-- The failure message of `create_invoice` (line 256):
`f"Total (\x7btotal:.2f\x7d) must equal Collections (\x7bcoll_total:.2f\x7d) + Dues (\x7bdue_total:.2f\x7d)."`,
a function of exactly the three computed figures. -/
def reconciliationMessage (total coll_total due_total : ℚ) : String :=
  "Total (" ++ fmt2 total ++ ") must equal Collections (" ++ fmt2 coll_total ++
  ") + Dues (" ++ fmt2 due_total ++ ")."

/-- Embedding of `create_invoice` of `inventory_billing_app1.py`
(lines 241-300), as a pure state transformer: it computes the three totals,
applies the reconciliation check `abs(total - (coll_total + due_total)) < 0.005`,
and either returns `(False, msg, -1)` leaving the database untouched, or
inserts the invoice row and all child rows and returns
`(True, "Invoice #... saved.", inv_id)`. -/
def create_invoice (db : DB) (date : String) (person_name : String)
    (lines : List Line) (collections : List CollectionEntry)
    (dues : List DueEntry) (notes : String) : DB × InvoiceResult :=
  let total := lineTotal lines
  let coll_total := collTotal collections
  let due_total := dueTotal dues
  if |total - (coll_total + due_total)| < 5/1000 then
    let inv_id := db.next_invoice_id
    let db' : DB :=
      { invoices := db.invoices ++
          [{ id := inv_id, date := date, person_name := person_name.trim,
             total_amount := total, collection_amount := coll_total,
             due_amount := due_total, notes := notes }],
        invoice_lines := db.invoice_lines ++ invoiceLineRows inv_id lines,
        invoice_collections := db.invoice_collections ++ invoiceCollectionRows inv_id collections,
        invoice_dues := db.invoice_dues ++ invoiceDueRows inv_id dues,
        collections := db.collections ++ aggregateRows inv_id date person_name coll_total,
        next_invoice_id := inv_id + 1 }
    (db', { ok := true, msg := "Invoice #" ++ toString inv_id ++ " saved.",
            invoice_id := (inv_id : Int) })
  else
    (db, { ok := false,
           msg := reconciliationMessage total coll_total due_total,
           invoice_id := -1 })

/-- One element of the `rows` argument of `add_inventory_movement`
(a dict with keys item, opening_balance, stock_in, stock_out,
stock_returning_today). -/
structure MovementInput where
  item : String
  opening_balance : ℚ
  stock_in : ℚ
  stock_out : ℚ
  stock_returning_today : ℚ
deriving Repr, DecidableEq

/-- A row of the `inventory_movements` table.  `closing_balance` and
`stock_remaining` are the generated columns declared in the schema
(lines 96-107): `closing_balance AS (opening_balance + stock_in - stock_out +
stock_returning_today) STORED` and `stock_remaining AS (closing_balance) STORED`. -/
structure InventoryMovementRow where
  date : String
  item : String
  opening_balance : ℚ
  stock_in : ℚ
  stock_out : ℚ
  stock_returning_today : ℚ
  closing_balance : ℚ
  stock_remaining : ℚ
deriving Repr, DecidableEq

/-- The row stored for one movement input, with the generated columns
computed from the schema formulas. -/
def movementRow (date : String) (r : MovementInput) : InventoryMovementRow :=
  { date := date, item := r.item,
    opening_balance := r.opening_balance, stock_in := r.stock_in,
    stock_out := r.stock_out, stock_returning_today := r.stock_returning_today,
    closing_balance :=
      r.opening_balance + r.stock_in - r.stock_out + r.stock_returning_today,
    stock_remaining :=
      r.opening_balance + r.stock_in - r.stock_out + r.stock_returning_today }

/-- Embedding of `add_inventory_movement` (lines 302-316): inserts one row per
input with a non-empty item, skipping empty items. -/
def add_inventory_movement (table : List InventoryMovementRow) (date : String)
    (rows : List MovementInput) : List InventoryMovementRow :=
  table ++ rows.filterMap fun r =>
    if r.item = "" then none else some (movementRow date r)

/-- One element of the `lines` argument of the non-reconciling
`create_invoice` in `inventory_billing_app.py` (no highlight key). -/
structure Line0 where
  item : String
  unit_price : ℚ
  qty : ℚ
  units : String
deriving Repr, DecidableEq

/-- A row of the `invoice_lines` table in the `inventory_billing_app.py`
schema (no `highlight` column); `amount` is the generated column. -/
structure InvoiceLineRow0 where
  invoice_id : Nat
  line_no : Nat
  item : String
  unit_price : ℚ
  qty : ℚ
  units : String
  amount : ℚ
deriving Repr, DecidableEq

/-- The `invoice_lines` rows inserted by the loop of the non-reconciling
`create_invoice` (`for i, line in enumerate(lines, start=1)`, empty-item
lines skipped). -/
def invoiceLineRows0From (inv_id : Nat) : Nat → List Line0 → List InvoiceLineRow0
  | _, [] => []
  | i, l :: ls =>
    (if l.item = "" then [] else
      [{ invoice_id := inv_id, line_no := i, item := l.item,
         unit_price := l.unit_price, qty := l.qty, units := l.units,
         amount := l.unit_price * l.qty }]) ++ invoiceLineRows0From inv_id (i + 1) ls

/-- The database state touched by the non-reconciling `create_invoice`
(`inventory_billing_app.py` has no invoice_collections / invoice_dues tables). -/
structure DB0 where
  invoices : List InvoiceRow
  invoice_lines : List InvoiceLineRow0
  collections : List CollectionRow
  next_invoice_id : Nat
deriving Repr, DecidableEq

/-- Embedding of `create_invoice` of `inventory_billing_app.py`
(lines 204-233): no validation of any kind; `due = total - collection_amount`
by construction; lines with an empty item are skipped; a legacy `collections`
row is inserted when `collection_amount` is non-zero (Python truthiness of a
float plus the explicit `!= 0` check collapse to non-zero over ℚ).  Returns
the new invoice id. -/
def create_invoice0 (db : DB0) (date : String) (person_name : String)
    (lines : List Line0) (collection_amount : ℚ) (notes : String) : DB0 × Nat :=
  let total := (lines.map fun l => l.unit_price * l.qty).sum
  let due := total - collection_amount
  let inv_id := db.next_invoice_id
  let db' : DB0 :=
    { invoices := db.invoices ++
        [{ id := inv_id, date := date, person_name := person_name.trim,
           total_amount := total, collection_amount := collection_amount,
           due_amount := due, notes := notes }],
      invoice_lines := db.invoice_lines ++ invoiceLineRows0From inv_id 1 lines,
      collections := db.collections ++
        (if collection_amount ≠ 0 then
          [{ date := date, amount := collection_amount,
             note := aggregateNote inv_id person_name }]
         else []),
      next_invoice_id := inv_id + 1 }
  (db', inv_id)

end InvBill

namespace SchemaM

/-- A stored value in a migrated table row.  The migration logic never
inspects row values; they are carried through so that "never rewrites
existing row data" can be stated. -/
inductive Value where
  | intV : ℤ → Value
  | realV : ℚ → Value
  | textV : String → Value
  | nullV : Value
deriving Repr, DecidableEq

/-- One table: its column list (in PRAGMA table_info order) and its rows
(each row one value per column). -/
structure Table where
  columns : List String
  rows : List (List Value)
deriving Repr, DecidableEq

/-- The database schema state: an association list from table name to table,
in creation order. -/
abbrev SchemaDB := List (String × Table)

/-- Looks up a table by name (first match). -/
def getTable (db : SchemaDB) (name : String) : Option Table :=
  (List.find? (fun t => t.1 = name) db).map (fun t => t.2)

/-- Embedding of `CREATE TABLE IF NOT EXISTS name(cols...)`: a no-op when a
table of that name exists, otherwise appends a fresh empty table. -/
def createTableIfNotExists (db : SchemaDB) (name : String) (cols : List String) :
    SchemaDB :=
  if (List.find? (fun t => t.1 = name) db).isSome then db
  else db ++ [(name, { columns := cols, rows := [] })]

/-- Embedding of `table_has_column` (lines 82-85): reads PRAGMA table_info of
the table and tests membership of the column name (an absent table yields an
empty column list, hence `false`). -/
def table_has_column (db : SchemaDB) (table column : String) : Bool :=
  match getTable db table with
  | some t => t.columns.contains column
  | none => false

/-- Embedding of `ALTER TABLE table ADD COLUMN column ... DEFAULT dflt`:
appends the column to every table of that name and extends each existing row
with the default value; existing data is untouched. -/
def addColumn (db : SchemaDB) (table column : String) (dflt : Value) : SchemaDB :=
  db.map fun t =>
    if t.1 = table then
      (t.1, { columns := t.2.columns ++ [column],
              rows := t.2.rows.map (fun r => r ++ [dflt]) })
    else t

/-- Column lists of the seven tables created by `init_db_schema`
(lines 87-151), in declaration order, generated columns included. -/
def itemsCols : List String := ["item", "rate"]

def inventoryMovementsCols : List String :=
  ["id", "date", "item", "opening_balance", "stock_in", "stock_out",
   "stock_returning_today", "closing_balance", "stock_remaining"]

def invoicesCols : List String :=
  ["id", "date", "person_name", "total_amount", "collection_amount",
   "due_amount", "notes"]

def invoiceLinesCols : List String :=
  ["id", "invoice_id", "line_no", "item", "unit_price", "qty", "units",
   "highlight", "amount"]

def invoiceCollectionsCols : List String :=
  ["id", "invoice_id", "method", "amount"]

def invoiceDuesCols : List String :=
  ["id", "invoice_id", "shop_no", "amount"]

def collectionsCols : List String :=
  ["id", "date", "amount", "note"]

/-- Embedding of `init_db_schema` (lines 87-151): seven
`CREATE TABLE IF NOT EXISTS` statements in order. -/
def init_db_schema (db : SchemaDB) : SchemaDB :=
  createTableIfNotExists
    (createTableIfNotExists
      (createTableIfNotExists
        (createTableIfNotExists
          (createTableIfNotExists
            (createTableIfNotExists
              (createTableIfNotExists db "items" itemsCols)
              "inventory_movements" inventoryMovementsCols)
            "invoices" invoicesCols)
          "invoice_lines" invoiceLinesCols)
        "invoice_collections" invoiceCollectionsCols)
      "invoice_dues" invoiceDuesCols)
    "collections" collectionsCols

/-- Embedding of `migrate_db` (lines 153-175): adds the `highlight` column to
`invoice_lines` when absent (INTEGER NOT NULL DEFAULT 0), then ensures the
`invoice_collections` and `invoice_dues` tables exist. -/
def migrate_db (db : SchemaDB) : SchemaDB :=
  createTableIfNotExists
    (createTableIfNotExists
      (if table_has_column db "invoice_lines" "highlight" then db
       else addColumn db "invoice_lines" "highlight" (Value.intV 0))
      "invoice_collections" invoiceCollectionsCols)
    "invoice_dues" invoiceDuesCols

/-- The startup sequence relevant to migration (`init_all`, line 366):
`init_db_schema()` then `migrate_db()`. -/
def initAndMigrate (db : SchemaDB) : SchemaDB :=
  migrate_db (init_db_schema db)

end SchemaM

/-! Concrete inputs used by witnesses and counterexamples. -/

namespace Ex

/-- A line worth 100 (rate 100, quantity 1). -/
def lKG : InvBill.Line := { item := "RICE", unit_price := 100, qty := 1, units := "KG", highlight := false }

/-- A UPI collection of 60. -/
def cUPI60 : InvBill.CollectionEntry := { method := "UPI", amount := 60 }

/-- A due of 30 for shop S1. -/
def dS30 : InvBill.DueEntry := { shop_no := "S1", amount := 30 }

/-- A line worth 20 (rate 10, quantity 2). -/
def l2A : InvBill.Line := { item := "A", unit_price := 10, qty := 2, units := "UNITS", highlight := false }

/-- A cash collection of 20. -/
def cCash20 : InvBill.CollectionEntry := { method := "Cash", amount := 20 }

/-- A line worth exactly 100. -/
def l100 : InvBill.Line := { item := "A", unit_price := 100, qty := 1, units := "", highlight := false }

/-- A cash collection of 99.996: within the 0.005 tolerance of 100 but not
equal to it. -/
def cNear : InvBill.CollectionEntry := { method := "Cash", amount := 99996/1000 }

/-- An empty-item line (dropped from persistence) that still contributes
5 * 2 = 10 to the total. -/
def lDropped : InvBill.Line := { item := "", unit_price := 5, qty := 2, units := "", highlight := false }

/-- A zero-quantity line contributing 0 to the total. -/
def lZeroQty : InvBill.Line := { item := "B", unit_price := 7, qty := 0, units := "", highlight := false }

/-- A line worth 10. -/
def lTen : InvBill.Line := { item := "A", unit_price := 10, qty := 1, units := "", highlight := false }

/-- A negative collection amount of -5. -/
def cNeg : InvBill.CollectionEntry := { method := "Cash", amount := -5 }

/-- A cash collection of 10. -/
def cTen : InvBill.CollectionEntry := { method := "Cash", amount := 10 }

/-- A line worth 5. -/
def lFive : InvBill.Line := { item := "A", unit_price := 5, qty := 1, units := "", highlight := false }

/-- A zero-quantity line with a non-empty item. -/
def lA0 : InvBill.Line := { item := "A", unit_price := 5, qty := 0, units := "", highlight := false }

/-- A line worth 5 (rate 5, quantity 1), item B, highlighted. -/
def lB1 : InvBill.Line := { item := "B", unit_price := 5, qty := 1, units := "", highlight := true }

/-- A positive-amount due with an empty shop number. -/
def dEmpty5 : InvBill.DueEntry := { shop_no := "", amount := 5 }

/-- A collection of 50 with an out-of-set method. -/
def cCard50 : InvBill.CollectionEntry := { method := "Card", amount := 50 }

/-- A line worth 50. -/
def lFifty : InvBill.Line := { item := "A", unit_price := 50, qty := 1, units := "", highlight := false }

/-- The movement of the spec scenario: opening 50, in 10, out 5, returning 2. -/
def mv : InvBill.MovementInput :=
  { item := "A", opening_balance := 50, stock_in := 10, stock_out := 5,
    stock_returning_today := 2 }

/-- An old-schema `invoice_lines` table, without the `highlight` column and
with one existing row. -/
def oldLines : SchemaM.Table :=
  { columns := ["id", "invoice_id", "line_no", "item", "unit_price", "qty", "units"],
    rows := [[SchemaM.Value.intV 1, SchemaM.Value.intV 1, SchemaM.Value.intV 1,
              SchemaM.Value.textV "RICE", SchemaM.Value.realV 10,
              SchemaM.Value.realV 2, SchemaM.Value.textV "KG"]] }

/-- An old database holding only the old-schema `invoice_lines` table. -/
def oldDB : SchemaM.SchemaDB := [("invoice_lines", oldLines)]

end Ex

/-! Helper lemmas shared by several claim proofs. -/

namespace InvBill

/-- Success-path unfolding of `create_invoice`: when the reconciliation check
passes, the returned state appends exactly the invoice row and the child rows. -/
theorem create_invoice_eq_of_lt (db : DB) (date person_name notes : String)
    (lines : List Line) (collections : List CollectionEntry) (dues : List DueEntry)
    (h : |lineTotal lines - (collTotal collections + dueTotal dues)| < 5/1000) :
    create_invoice db date person_name lines collections dues notes =
      ({ invoices := db.invoices ++
           [{ id := db.next_invoice_id, date := date,
              person_name := person_name.trim,
              total_amount := lineTotal lines,
              collection_amount := collTotal collections,
              due_amount := dueTotal dues, notes := notes }],
         invoice_lines := db.invoice_lines ++
           invoiceLineRows db.next_invoice_id lines,
         invoice_collections := db.invoice_collections ++
           invoiceCollectionRows db.next_invoice_id collections,
         invoice_dues := db.invoice_dues ++ invoiceDueRows db.next_invoice_id dues,
         collections := db.collections ++
           aggregateRows db.next_invoice_id date person_name (collTotal collections),
         next_invoice_id := db.next_invoice_id + 1 },
       { ok := true, msg := "Invoice #" ++ toString db.next_invoice_id ++ " saved.",
         invoice_id := (db.next_invoice_id : Int) }) := by
  simp only [create_invoice]
  rw [if_pos h]

/-- The returned `ok` flag holds exactly when the reconciliation check passes. -/
theorem create_invoice_ok_iff (db : DB) (date person_name notes : String)
    (lines : List Line) (collections : List CollectionEntry) (dues : List DueEntry) :
    (create_invoice db date person_name lines collections dues notes).2.ok = true ↔
      |lineTotal lines - (collTotal collections + dueTotal dues)| < 5/1000 := by
  by_cases h : |lineTotal lines - (collTotal collections + dueTotal dues)| < 5/1000
  · rw [create_invoice_eq_of_lt db date person_name notes lines collections dues h]
    simp [h]
  · simp only [create_invoice]
    rw [if_neg h]
    simp [h]

/-- C1: for every invocation of the reconciling `create_invoice` in which
`|total - (collection_total + due_total)| >= 0.005`, the operation fails
(`ok = False`, invoice id `-1`), the failure message carries the three
computed figures (total, collections total, dues total), and the database is
returned unchanged, so no row is written to any of the tables `invoices`,
`invoice_lines`, `invoice_collections`, `invoice_dues`, `collections`. -/
theorem create_invoice_reconciliation_failure_writes_nothing
    (db : DB) (date person_name notes : String) (lines : List Line)
    (collections : List CollectionEntry) (dues : List DueEntry)
    (h : 5/1000 ≤ |lineTotal lines - (collTotal collections + dueTotal dues)|) :
    create_invoice db date person_name lines collections dues notes =
      (db, { ok := false,
             msg := reconciliationMessage (lineTotal lines) (collTotal collections)
                      (dueTotal dues),
             invoice_id := -1 }) := by
  simp only [create_invoice]
  rw [if_neg (not_lt.mpr h)]

/-- Witness for C1: total 100, collections 60, dues 30 (the spec scenario);
the gap 10 exceeds the 0.005 tolerance and nothing is written. -/
theorem create_invoice_reconciliation_failure_writes_nothing_witness :
    (5/1000 : ℚ) ≤ |lineTotal [Ex.lKG] - (collTotal [Ex.cUPI60] + dueTotal [Ex.dS30])| ∧
    create_invoice emptyDB "2025-09-28" "RAM" [Ex.lKG] [Ex.cUPI60] [Ex.dS30] "" =
      (emptyDB,
       { ok := false,
         msg := reconciliationMessage (lineTotal [Ex.lKG]) (collTotal [Ex.cUPI60])
                  (dueTotal [Ex.dS30]),
         invoice_id := -1 }) := by
  have h : (5/1000 : ℚ) ≤
      |lineTotal [Ex.lKG] - (collTotal [Ex.cUPI60] + dueTotal [Ex.dS30])| := by
    norm_num [lineTotal, collTotal, dueTotal, Ex.lKG, Ex.cUPI60, Ex.dS30, abs]
  exact ⟨h, create_invoice_reconciliation_failure_writes_nothing
    emptyDB "2025-09-28" "RAM" "" [Ex.lKG] [Ex.cUPI60] [Ex.dS30] h⟩

/-- C2 counterexample: lines worth exactly 100 and a single collection of
99.996 pass the reconciliation check (gap 0.004 < 0.005), `create_invoice`
succeeds, yet the persisted row has `collection_amount + due_amount`
different from `total_amount`: the stored equality is not exact. -/
theorem stored_sum_not_exact_counterexample :
    |lineTotal [Ex.l100] - (collTotal [Ex.cNear] + dueTotal [])| < 5/1000 ∧
    (create_invoice emptyDB "2025-09-28" "P" [Ex.l100] [Ex.cNear] [] "").2.ok = true ∧
    ∃ r, (create_invoice emptyDB "2025-09-28" "P" [Ex.l100] [Ex.cNear] [] "").1.invoices
           = [r] ∧
      r.collection_amount + r.due_amount ≠ r.total_amount := by
  have h : |lineTotal [Ex.l100] - (collTotal [Ex.cNear] + dueTotal ([] : List DueEntry))|
      < 5/1000 := by
    norm_num [lineTotal, collTotal, dueTotal, Ex.l100, Ex.cNear, abs]
  refine ⟨h, ?_, ?_⟩
  · rw [create_invoice_eq_of_lt emptyDB "2025-09-28" "P" "" [Ex.l100] [Ex.cNear] [] h]
  · rw [create_invoice_eq_of_lt emptyDB "2025-09-28" "P" "" [Ex.l100] [Ex.cNear] [] h]
    refine ⟨_, rfl, ?_⟩
    norm_num [lineTotal, collTotal, dueTotal, Ex.l100, Ex.cNear]

/-- C2 (amended): when collections plus dues equal the line total within
0.005, `create_invoice` succeeds and the persisted invoice row stores exactly
the three computed figures, so `collection_amount + due_amount` equals
`total_amount` within 0.005 as stored — but not necessarily exactly. -/
theorem create_invoice_success_stores_totals_within_tolerance
    (db : DB) (date person_name notes : String) (lines : List Line)
    (collections : List CollectionEntry) (dues : List DueEntry)
    (h : |lineTotal lines - (collTotal collections + dueTotal dues)| < 5/1000) :
    (create_invoice db date person_name lines collections dues notes).2.ok = true ∧
    ∃ r, (create_invoice db date person_name lines collections dues notes).1.invoices
           = db.invoices ++ [r] ∧
      r.total_amount = lineTotal lines ∧
      r.collection_amount = collTotal collections ∧
      r.due_amount = dueTotal dues ∧
      |r.collection_amount + r.due_amount - r.total_amount| < 5/1000 := by
  rw [create_invoice_eq_of_lt db date person_name notes lines collections dues h]
  refine ⟨rfl, _, rfl, rfl, rfl, rfl, ?_⟩
  rw [abs_sub_comm]
  exact h

/-- Witness for C2 (amended): the spec scenario with a line of rate 10 and
quantity 2 (total 20), one cash collection of 20, and no dues. -/
theorem create_invoice_success_stores_totals_within_tolerance_witness :
    |lineTotal [Ex.l2A] - (collTotal [Ex.cCash20] + dueTotal [])| < 5/1000 ∧
    ((create_invoice emptyDB "2025-09-28" "RAM" [Ex.l2A] [Ex.cCash20] [] "").2.ok = true ∧
     ∃ r, (create_invoice emptyDB "2025-09-28" "RAM" [Ex.l2A] [Ex.cCash20] [] "").1.invoices
            = emptyDB.invoices ++ [r] ∧
       r.total_amount = lineTotal [Ex.l2A] ∧
       r.collection_amount = collTotal [Ex.cCash20] ∧
       r.due_amount = dueTotal [] ∧
       |r.collection_amount + r.due_amount - r.total_amount| < 5/1000) := by
  have h : |lineTotal [Ex.l2A] - (collTotal [Ex.cCash20] + dueTotal ([] : List DueEntry))|
      < 5/1000 := by
    norm_num [lineTotal, collTotal, dueTotal, Ex.l2A, Ex.cCash20, abs]
  exact ⟨h, create_invoice_success_stores_totals_within_tolerance
    emptyDB "2025-09-28" "RAM" "" [Ex.l2A] [Ex.cCash20] [] h⟩

/-- C4: the total computed by `create_invoice` (and stored on the invoice
row) is the sum of `unit_price * qty` over all submitted lines, before any
line is dropped for storage: zero-quantity and empty-item lines still
contribute their product to the total. -/
theorem create_invoice_total_sums_all_submitted_lines
    (db : DB) (date person_name notes : String) (lines : List Line)
    (collections : List CollectionEntry) (dues : List DueEntry)
    (h : |lineTotal lines - (collTotal collections + dueTotal dues)| < 5/1000) :
    ((create_invoice db date person_name lines collections dues notes).1.invoices.getLast?).map
        (fun r => r.total_amount) =
      some ((lines.map fun l => l.unit_price * l.qty).sum) := by
  rw [create_invoice_eq_of_lt db date person_name notes lines collections dues h]
  simp [List.getLast?_concat, lineTotal]

/-- Witness for C4: the line list holds an empty-item line worth 10 (dropped
from storage) and a zero-quantity line; the stored total 20 counts both. -/
theorem create_invoice_total_sums_all_submitted_lines_witness :
    |lineTotal [Ex.lDropped, Ex.lZeroQty, Ex.lTen] -
        (collTotal [Ex.cCash20] + dueTotal [])| < 5/1000 ∧
    ((create_invoice emptyDB "2025-09-28" "RAM" [Ex.lDropped, Ex.lZeroQty, Ex.lTen]
        [Ex.cCash20] [] "").1.invoices.getLast?).map (fun r => r.total_amount) =
      some (([Ex.lDropped, Ex.lZeroQty, Ex.lTen].map fun l => l.unit_price * l.qty).sum) := by
  have h : |lineTotal [Ex.lDropped, Ex.lZeroQty, Ex.lTen] -
      (collTotal [Ex.cCash20] + dueTotal ([] : List DueEntry))| < 5/1000 := by
    norm_num [lineTotal, collTotal, dueTotal, Ex.lDropped, Ex.lZeroQty, Ex.lTen,
      Ex.cCash20, abs]
  exact ⟨h, create_invoice_total_sums_all_submitted_lines
    emptyDB "2025-09-28" "RAM" "" [Ex.lDropped, Ex.lZeroQty, Ex.lTen] [Ex.cCash20] [] h⟩

/-- C5 counterexample: with collections `[-5, 10]` the code sums all entries
(total 5), not only the positive ones (10): an invoice whose lines are worth
5 passes the check and stores `collection_amount = 5`, so neither the figure
used in the check nor the persisted one excludes non-positive amounts. -/
theorem totals_include_nonpositive_counterexample :
    collTotal [Ex.cNeg, Ex.cTen] ≠
      (([Ex.cNeg, Ex.cTen].filter fun c => 0 < c.amount).map fun c => c.amount).sum ∧
    (create_invoice emptyDB "2025-09-28" "P" [Ex.lFive] [Ex.cNeg, Ex.cTen] [] "").2.ok
      = true ∧
    ∃ r, (create_invoice emptyDB "2025-09-28" "P" [Ex.lFive] [Ex.cNeg, Ex.cTen] [] "").1.invoices
           = [r] ∧
      r.collection_amount = collTotal [Ex.cNeg, Ex.cTen] ∧
      r.collection_amount ≠
        (([Ex.cNeg, Ex.cTen].filter fun c => 0 < c.amount).map fun c => c.amount).sum := by
  have h : |lineTotal [Ex.lFive] - (collTotal [Ex.cNeg, Ex.cTen] + dueTotal ([] : List DueEntry))|
      < 5/1000 := by
    norm_num [lineTotal, collTotal, dueTotal, Ex.lFive, Ex.cNeg, Ex.cTen, abs]
  refine ⟨?_, ?_, ?_⟩
  · norm_num [collTotal, List.filter_cons, Ex.cNeg, Ex.cTen]
  · rw [create_invoice_eq_of_lt emptyDB "2025-09-28" "P" "" [Ex.lFive] [Ex.cNeg, Ex.cTen] [] h]
  · rw [create_invoice_eq_of_lt emptyDB "2025-09-28" "P" "" [Ex.lFive] [Ex.cNeg, Ex.cTen] [] h]
    refine ⟨_, rfl, rfl, ?_⟩
    norm_num [collTotal, List.filter_cons, Ex.cNeg, Ex.cTen]

/-- C5 (amended): the `collection_total` used for the reconciliation check
and persisted as `collection_amount` is the sum over ALL submitted collection
amounts, with no exclusion of non-positive entries, and likewise `due_total`
over all due amounts. -/
theorem create_invoice_totals_sum_all_entries
    (db : DB) (date person_name notes : String) (lines : List Line)
    (collections : List CollectionEntry) (dues : List DueEntry)
    (hok : (create_invoice db date person_name lines collections dues notes).2.ok = true) :
    ((create_invoice db date person_name lines collections dues notes).1.invoices.getLast?).map
        (fun r => (r.collection_amount, r.due_amount)) =
      some ((collections.map fun c => c.amount).sum, (dues.map fun d => d.amount).sum) := by
  have h := (create_invoice_ok_iff db date person_name notes lines collections dues).mp hok
  rw [create_invoice_eq_of_lt db date person_name notes lines collections dues h]
  simp [List.getLast?_concat, collTotal, dueTotal]

/-- Witness for C5 (amended): the collections list holds a negative entry;
the stored `collection_amount` is the sum over all entries. -/
theorem create_invoice_totals_sum_all_entries_witness :
    (create_invoice emptyDB "2025-09-28" "P" [Ex.lFive] [Ex.cNeg, Ex.cTen] [] "").2.ok
      = true ∧
    ((create_invoice emptyDB "2025-09-28" "P" [Ex.lFive] [Ex.cNeg, Ex.cTen] [] "").1.invoices.getLast?).map
        (fun r => (r.collection_amount, r.due_amount)) =
      some (([Ex.cNeg, Ex.cTen].map fun c => c.amount).sum,
            (([] : List DueEntry).map fun d => d.amount).sum) := by
  have hok : (create_invoice emptyDB "2025-09-28" "P" [Ex.lFive] [Ex.cNeg, Ex.cTen] [] "").2.ok
      = true := by
    rw [create_invoice_ok_iff]
    norm_num [lineTotal, collTotal, dueTotal, Ex.lFive, Ex.cNeg, Ex.cTen, abs]
  exact ⟨hok, create_invoice_totals_sum_all_entries
    emptyDB "2025-09-28" "P" "" [Ex.lFive] [Ex.cNeg, Ex.cTen] [] hok⟩

/-- A filterMap whose function drops non-positive measures is the map of the
filter keeping positive measures. -/
theorem filterMap_if_nonpos_eq {α β : Type} (p : α → ℚ) (f : α → β) (l : List α) :
    (l.filterMap fun a => if p a ≤ 0 then none else some (f a)) =
      (l.filter fun a => 0 < p a).map f := by
  induction l with
  | nil => rfl
  | cons a l ih =>
    by_cases h : p a ≤ 0
    · simp [List.filterMap_cons, List.filter_cons, h, not_lt.mpr h, ih]
    · simp [List.filterMap_cons, List.filter_cons, h, not_le.mp h, ih]

/-- The stored collection rows are exactly the positive-amount entries, with
coerced methods, in submission order. -/
theorem invoiceCollectionRows_eq (inv_id : Nat) (cs : List CollectionEntry) :
    invoiceCollectionRows inv_id cs =
      (cs.filter fun c => 0 < c.amount).map fun c =>
        { invoice_id := inv_id, method := storedMethod c.method, amount := c.amount } := by
  unfold invoiceCollectionRows
  exact filterMap_if_nonpos_eq (fun c => c.amount) _ cs

/-- The stored due rows are exactly the positive-amount entries, shop numbers
stripped, in submission order. -/
theorem invoiceDueRows_eq (inv_id : Nat) (ds : List DueEntry) :
    invoiceDueRows inv_id ds =
      (ds.filter fun e => 0 < e.amount).map fun e =>
        { invoice_id := inv_id, shop_no := e.shop_no.trim, amount := e.amount } := by
  unfold invoiceDueRows
  exact filterMap_if_nonpos_eq (fun e => e.amount) _ ds

/-- The stored line rows are exactly the non-empty-item lines, each numbered
with its 1-based position in the submitted list (`enumerate(lines, start=1)`
keeps counting over skipped lines). -/
theorem invoiceLineRowsFrom_eq_enumFrom (inv_id s : Nat) (ls : List Line) :
    invoiceLineRowsFrom inv_id s ls =
      ((ls.enumFrom s).filter fun q => ¬ q.2.item = "").map fun q =>
        { invoice_id := inv_id, line_no := q.1, item := q.2.item,
          unit_price := q.2.unit_price, qty := q.2.qty, units := q.2.units,
          highlight := if q.2.highlight then 1 else 0,
          amount := q.2.unit_price * q.2.qty } := by
  induction ls generalizing s with
  | nil => rfl
  | cons l ls ih =>
    by_cases h : l.item = ""
    · simp [invoiceLineRowsFrom, List.enumFrom_cons, List.filter_cons, h, ih]
    · simp [invoiceLineRowsFrom, List.enumFrom_cons, List.filter_cons, h, ih]

/-- C6 counterexample: `create_invoice` persists a zero-quantity line with a
non-empty item, and a positive-amount due whose shop number is empty; the
claimed filters (non-zero quantity, non-empty shop) are applied by the UI
caller, not by `create_invoice` itself. -/
theorem child_rows_filter_counterexample :
    (create_invoice emptyDB "2025-09-28" "P" [Ex.lA0, Ex.lB1] [] [Ex.dEmpty5] "").2.ok
      = true ∧
    ((create_invoice emptyDB "2025-09-28" "P" [Ex.lA0, Ex.lB1] [] [Ex.dEmpty5] "").1.invoice_lines.map
        fun r => (r.item, r.qty, r.line_no)) = [("A", 0, 1), ("B", 1, 2)] ∧
    ((create_invoice emptyDB "2025-09-28" "P" [Ex.lA0, Ex.lB1] [] [Ex.dEmpty5] "").1.invoice_dues.map
        fun r => r.amount) = [5] ∧
    [Ex.dEmpty5].map (fun e => e.shop_no) = [""] := by
  have h : |lineTotal [Ex.lA0, Ex.lB1] - (collTotal [] + dueTotal [Ex.dEmpty5])|
      < 5/1000 := by
    norm_num [lineTotal, collTotal, dueTotal, Ex.lA0, Ex.lB1, Ex.dEmpty5, abs]
  refine ⟨?_, ?_, ?_, rfl⟩
  · rw [create_invoice_eq_of_lt emptyDB "2025-09-28" "P" "" [Ex.lA0, Ex.lB1] [] [Ex.dEmpty5] h]
  · rw [create_invoice_eq_of_lt emptyDB "2025-09-28" "P" "" [Ex.lA0, Ex.lB1] [] [Ex.dEmpty5] h]
    simp [invoiceLineRows, invoiceLineRowsFrom, Ex.lA0, Ex.lB1, emptyDB]
  · rw [create_invoice_eq_of_lt emptyDB "2025-09-28" "P" "" [Ex.lA0, Ex.lB1] [] [Ex.dEmpty5] h]
    norm_num [invoiceDueRows, List.filterMap_cons, Ex.dEmpty5, emptyDB]

/-- C6 (amended): on success the child rows persisted are exactly one
`invoice_lines` row per non-empty-item submitted line (regardless of
quantity), numbered by its 1-based position in the submitted list; one
`invoice_collections` row per positive-amount collection (method coerced
into the enumeration); and one `invoice_dues` row per positive-amount due
(regardless of shop number, stored stripped). -/
theorem create_invoice_child_rows_exact
    (db : DB) (date person_name notes : String) (lines : List Line)
    (collections : List CollectionEntry) (dues : List DueEntry)
    (h : |lineTotal lines - (collTotal collections + dueTotal dues)| < 5/1000) :
    (create_invoice db date person_name lines collections dues notes).1.invoice_lines =
      db.invoice_lines ++
        (((lines.enumFrom 1).filter fun q => ¬ q.2.item = "").map fun q =>
          { invoice_id := db.next_invoice_id, line_no := q.1, item := q.2.item,
            unit_price := q.2.unit_price, qty := q.2.qty, units := q.2.units,
            highlight := if q.2.highlight then 1 else 0,
            amount := q.2.unit_price * q.2.qty }) ∧
    (create_invoice db date person_name lines collections dues notes).1.invoice_collections =
      db.invoice_collections ++
        ((collections.filter fun c => 0 < c.amount).map fun c =>
          { invoice_id := db.next_invoice_id, method := storedMethod c.method,
            amount := c.amount }) ∧
    (create_invoice db date person_name lines collections dues notes).1.invoice_dues =
      db.invoice_dues ++
        ((dues.filter fun e => 0 < e.amount).map fun e =>
          { invoice_id := db.next_invoice_id, shop_no := e.shop_no.trim,
            amount := e.amount }) := by
  rw [create_invoice_eq_of_lt db date person_name notes lines collections dues h]
  refine ⟨?_, ?_, ?_⟩
  · show db.invoice_lines ++ invoiceLineRows db.next_invoice_id lines = _
    rw [invoiceLineRows, invoiceLineRowsFrom_eq_enumFrom]
  · show db.invoice_collections ++ invoiceCollectionRows db.next_invoice_id collections = _
    rw [invoiceCollectionRows_eq]
  · show db.invoice_dues ++ invoiceDueRows db.next_invoice_id dues = _
    rw [invoiceDueRows_eq]

/-- Witness for C6 (amended): a dropped empty-item line, a kept line, a
negative collection entry (dropped) and an empty-shop due (kept). -/
theorem create_invoice_child_rows_exact_witness :
    |lineTotal [Ex.lTen] - (collTotal [Ex.cTen, Ex.cNeg] + dueTotal [Ex.dEmpty5])|
      < 5/1000 ∧
    ((create_invoice emptyDB "2025-09-28" "P" [Ex.lTen] [Ex.cTen, Ex.cNeg] [Ex.dEmpty5] "").1.invoice_lines =
      emptyDB.invoice_lines ++
        ((([Ex.lTen].enumFrom 1).filter fun q => ¬ q.2.item = "").map fun q =>
          { invoice_id := emptyDB.next_invoice_id, line_no := q.1, item := q.2.item,
            unit_price := q.2.unit_price, qty := q.2.qty, units := q.2.units,
            highlight := if q.2.highlight then 1 else 0,
            amount := q.2.unit_price * q.2.qty }) ∧
    (create_invoice emptyDB "2025-09-28" "P" [Ex.lTen] [Ex.cTen, Ex.cNeg] [Ex.dEmpty5] "").1.invoice_collections =
      emptyDB.invoice_collections ++
        (([Ex.cTen, Ex.cNeg].filter fun c => 0 < c.amount).map fun c =>
          { invoice_id := emptyDB.next_invoice_id, method := storedMethod c.method,
            amount := c.amount }) ∧
    (create_invoice emptyDB "2025-09-28" "P" [Ex.lTen] [Ex.cTen, Ex.cNeg] [Ex.dEmpty5] "").1.invoice_dues =
      emptyDB.invoice_dues ++
        (([Ex.dEmpty5].filter fun e => 0 < e.amount).map fun e =>
          { invoice_id := emptyDB.next_invoice_id, shop_no := e.shop_no.trim,
            amount := e.amount })) := by
  have h : |lineTotal [Ex.lTen] - (collTotal [Ex.cTen, Ex.cNeg] + dueTotal [Ex.dEmpty5])|
      < 5/1000 := by
    norm_num [lineTotal, collTotal, dueTotal, Ex.lTen, Ex.cTen, Ex.cNeg, Ex.dEmpty5, abs]
  exact ⟨h, create_invoice_child_rows_exact
    emptyDB "2025-09-28" "P" "" [Ex.lTen] [Ex.cTen, Ex.cNeg] [Ex.dEmpty5] h⟩

/-- C7: a collection entry whose method is outside the enumeration
Cash / UPI is not rejected: its method is coerced to Cash and, when its
amount is positive, it is persisted as an `invoice_collections` row whose
method is Cash and whose amount is unchanged. -/
theorem out_of_set_method_coerced_to_cash
    (db : DB) (date person_name notes : String) (lines : List Line)
    (collections : List CollectionEntry) (dues : List DueEntry) (c : CollectionEntry)
    (hok : (create_invoice db date person_name lines collections dues notes).2.ok = true)
    (hc : c ∈ collections)
    (hm : ¬ (c.method = "Cash" ∨ c.method = "UPI"))
    (ha : 0 < c.amount) :
    ({ invoice_id := db.next_invoice_id, method := "Cash", amount := c.amount } :
        InvoiceCollectionRow) ∈
      (create_invoice db date person_name lines collections dues notes).1.invoice_collections := by
  have h := (create_invoice_ok_iff db date person_name notes lines collections dues).mp hok
  rw [create_invoice_eq_of_lt db date person_name notes lines collections dues h]
  apply List.mem_append_right
  show _ ∈ invoiceCollectionRows db.next_invoice_id collections
  rw [invoiceCollectionRows]
  refine List.mem_filterMap.mpr ⟨c, hc, ?_⟩
  rw [if_neg (not_le.mpr ha)]
  rw [storedMethod, if_neg hm]

/-- Witness for C7: a collection of 50 with method Card is stored as Cash. -/
theorem out_of_set_method_coerced_to_cash_witness :
    (create_invoice emptyDB "2025-09-28" "P" [Ex.lFifty] [Ex.cCard50] [] "").2.ok = true ∧
    Ex.cCard50 ∈ [Ex.cCard50] ∧
    ¬ (Ex.cCard50.method = "Cash" ∨ Ex.cCard50.method = "UPI") ∧
    0 < Ex.cCard50.amount ∧
    ({ invoice_id := emptyDB.next_invoice_id, method := "Cash",
       amount := Ex.cCard50.amount } : InvoiceCollectionRow) ∈
      (create_invoice emptyDB "2025-09-28" "P" [Ex.lFifty] [Ex.cCard50] [] "").1.invoice_collections := by
  have hok : (create_invoice emptyDB "2025-09-28" "P" [Ex.lFifty] [Ex.cCard50] [] "").2.ok
      = true := by
    rw [create_invoice_ok_iff]
    norm_num [lineTotal, collTotal, dueTotal, Ex.lFifty, Ex.cCard50, abs]
  have hc : Ex.cCard50 ∈ [Ex.cCard50] := List.mem_singleton.mpr rfl
  have hm : ¬ (Ex.cCard50.method = "Cash" ∨ Ex.cCard50.method = "UPI") := by
    simp [Ex.cCard50]
  have ha : 0 < Ex.cCard50.amount := by norm_num [Ex.cCard50]
  exact ⟨hok, hc, hm, ha, out_of_set_method_coerced_to_cash
    emptyDB "2025-09-28" "P" "" [Ex.lFifty] [Ex.cCard50] [] Ex.cCard50 hok hc hm ha⟩

/-- C8: on success, the legacy daily `collections` aggregate row is inserted
exactly when the computed collection total is non-zero, with that total as
amount and a note built from the newly assigned invoice id and the person
name. -/
theorem aggregate_collection_row_iff_nonzero
    (db : DB) (date person_name notes : String) (lines : List Line)
    (collections : List CollectionEntry) (dues : List DueEntry)
    (h : |lineTotal lines - (collTotal collections + dueTotal dues)| < 5/1000) :
    (create_invoice db date person_name lines collections dues notes).2.invoice_id
        = (db.next_invoice_id : Int) ∧
    (create_invoice db date person_name lines collections dues notes).1.collections =
      db.collections ++
        (if collTotal collections ≠ 0 then
          [{ date := date, amount := collTotal collections,
             note := "Invoice #" ++ toString db.next_invoice_id ++ " - " ++ person_name }]
         else []) := by
  rw [create_invoice_eq_of_lt db date person_name notes lines collections dues h]
  exact ⟨rfl, rfl⟩

/-- Witness for C8: a collection total of 20 is non-zero, so one aggregate
row of amount 20 is inserted, annotated with invoice id 1 and the name. -/
theorem aggregate_collection_row_iff_nonzero_witness :
    |lineTotal [Ex.l2A] - (collTotal [Ex.cCash20] + dueTotal [])| < 5/1000 ∧
    ((create_invoice emptyDB "2025-09-28" "RAM" [Ex.l2A] [Ex.cCash20] [] "").2.invoice_id
        = (emptyDB.next_invoice_id : Int) ∧
     (create_invoice emptyDB "2025-09-28" "RAM" [Ex.l2A] [Ex.cCash20] [] "").1.collections =
       emptyDB.collections ++
         (if collTotal [Ex.cCash20] ≠ 0 then
           [{ date := "2025-09-28", amount := collTotal [Ex.cCash20],
              note := "Invoice #" ++ toString emptyDB.next_invoice_id ++ " - " ++ "RAM" }]
          else [])) := by
  have h : |lineTotal [Ex.l2A] - (collTotal [Ex.cCash20] + dueTotal ([] : List DueEntry))|
      < 5/1000 := by
    norm_num [lineTotal, collTotal, dueTotal, Ex.l2A, Ex.cCash20, abs]
  exact ⟨h, aggregate_collection_row_iff_nonzero
    emptyDB "2025-09-28" "RAM" "" [Ex.l2A] [Ex.cCash20] [] h⟩

/-- C9: every row stored by `add_inventory_movement` satisfies the generated
column formulas `closing_balance = opening_balance + stock_in - stock_out +
stock_returning_today` and `stock_remaining = closing_balance`; in
particular the movement (opening 50, in 10, out 5, returning 2) stores
closing balance and stock remaining 57. -/
theorem inventory_movement_closing_balance_invariant
    (table : List InventoryMovementRow) (date : String) (rows : List MovementInput) :
    (∀ row ∈ add_inventory_movement table date rows, row ∈ table ∨
       (row.closing_balance = row.opening_balance + row.stock_in - row.stock_out
          + row.stock_returning_today ∧
        row.stock_remaining = row.closing_balance)) ∧
    (add_inventory_movement [] "2025-09-28" [Ex.mv]).map
        (fun r => (r.closing_balance, r.stock_remaining)) = [(57, 57)] := by
  constructor
  · intro row hrow
    rcases List.mem_append.mp hrow with hl | hr
    · exact Or.inl hl
    · right
      rcases List.mem_filterMap.mp hr with ⟨r, _, hf⟩
      by_cases hi : r.item = ""
      · rw [if_pos hi] at hf
        cases hf
      · rw [if_neg hi] at hf
        cases hf
        exact ⟨rfl, rfl⟩
  · rw [show add_inventory_movement [] "2025-09-28" [Ex.mv]
        = [movementRow "2025-09-28" Ex.mv] from rfl]
    norm_num [movementRow, Ex.mv]

/-- C10: the non-reconciling `create_invoice` of `inventory_billing_app.py`
performs no validation and never rejects: for every input it persists exactly
one invoice row, returning its id, and the stored row has
`due_amount = total_amount - collection_amount`, so
`collection_amount + due_amount = total_amount` holds exactly by
construction even though no check is made. -/
theorem create_invoice0_never_rejects_exact_due
    (db : DB0) (date person_name notes : String) (lines : List Line0)
    (collection_amount : ℚ) :
    (create_invoice0 db date person_name lines collection_amount notes).1.invoices =
      db.invoices ++
        [{ id := db.next_invoice_id, date := date, person_name := person_name.trim,
           total_amount := (lines.map fun l => l.unit_price * l.qty).sum,
           collection_amount := collection_amount,
           due_amount := (lines.map fun l => l.unit_price * l.qty).sum
             - collection_amount,
           notes := notes }] ∧
    (create_invoice0 db date person_name lines collection_amount notes).2 =
      db.next_invoice_id ∧
    collection_amount +
        ((lines.map fun l => l.unit_price * l.qty).sum - collection_amount) =
      (lines.map fun l => l.unit_price * l.qty).sum := by
  refine ⟨rfl, rfl, ?_⟩
  ring

end InvBill

namespace SchemaM

/-- Lookup after `CREATE TABLE IF NOT EXISTS`: the named table is present
(kept if it existed, fresh otherwise), every other lookup is unchanged. -/
theorem getTable_createTable (db : SchemaDB) (n : String) (c : List String) (m : String) :
    getTable (createTableIfNotExists db n c) m =
      if m = n then some ((getTable db n).getD { columns := c, rows := [] })
      else getTable db m := by
  unfold createTableIfNotExists
  by_cases hex : (List.find? (fun t => t.1 = n) db).isSome
  · rw [if_pos hex]
    by_cases hmn : m = n
    · subst hmn
      rcases Option.isSome_iff_exists.mp hex with ⟨t, ht⟩
      rw [if_pos rfl]
      simp [getTable, ht]
    · rw [if_neg hmn]
  · rw [if_neg hex]
    have hnone : List.find? (fun t => t.1 = n) db = none :=
      Option.not_isSome_iff_eq_none.mp hex
    unfold getTable
    rw [List.find?_append]
    by_cases hmn : m = n
    · subst hmn
      rw [if_pos rfl, hnone]
      simp [List.find?]
    · rw [if_neg hmn]
      have hsingle :
          List.find? (fun t => t.1 = m)
            [(n, ({ columns := c, rows := [] } : Table))] = none := by
        simp [List.find?, Ne.symm hmn]
      rw [hsingle]
      cases hfind : List.find? (fun t => t.1 = m) db <;> simp

/-- Lookup after `ALTER TABLE ADD COLUMN`: the named table gains the column
(default value appended to each existing row), every other lookup is
unchanged. -/
theorem getTable_addColumn (db : SchemaDB) (tbl col : String) (v : Value) (m : String) :
    getTable (addColumn db tbl col v) m =
      if m = tbl then
        (getTable db m).map fun T =>
          { columns := T.columns ++ [col], rows := T.rows.map fun r => r ++ [v] }
      else getTable db m := by
  unfold addColumn getTable
  rw [List.find?_map]
  have hcomp : ((fun t : String × Table => decide (t.1 = m)) ∘ fun t =>
      if t.1 = tbl then
        (t.1, ({ columns := t.2.columns ++ [col],
                 rows := t.2.rows.map fun r => r ++ [v] } : Table))
      else t) = fun t : String × Table => decide (t.1 = m) := by
    funext t
    by_cases h : t.1 = tbl <;> simp [Function.comp, h]
  rw [hcomp]
  cases hfind : List.find? (fun t : String × Table => decide (t.1 = m)) db with
  | none => by_cases hmt : m = tbl <;> simp [hmt]
  | some e =>
    have he : e.1 = m := by
      have := List.find?_some hfind
      simpa using this
    by_cases hmt : m = tbl
    · subst hmt
      rw [if_pos rfl]
      simp [he]
    · rw [if_neg hmt]
      have hne : ¬ e.1 = tbl := by
        rw [he]; exact hmt
      simp [hne]

/-- A `CREATE TABLE IF NOT EXISTS` on an existing table is a no-op. -/
theorem createTable_of_isSome (db : SchemaDB) (n : String) (c : List String)
    (h : (getTable db n).isSome = true) :
    createTableIfNotExists db n c = db := by
  unfold createTableIfNotExists
  rw [if_pos]
  rw [getTable] at h
  cases hf : List.find? (fun t => t.1 = n) db with
  | none => rw [hf] at h; simp at h
  | some t => simp [hf]

/-- A lookup that succeeds keeps succeeding with the same table across
`CREATE TABLE IF NOT EXISTS`. -/
theorem getTable_createTable_some (db : SchemaDB) (n : String) (c : List String)
    (m : String) (T : Table) (h : getTable db m = some T) :
    getTable (createTableIfNotExists db n c) m = some T := by
  rw [getTable_createTable]
  by_cases hmn : m = n
  · subst hmn
    rw [if_pos rfl, h]
    rfl
  · rw [if_neg hmn]
    exact h

/-- A lookup that succeeds is preserved, with the same table, by
`init_db_schema`. -/
theorem getTable_init_some (db : SchemaDB) (m : String) (T : Table)
    (h : getTable db m = some T) :
    getTable (init_db_schema db) m = some T := by
  unfold init_db_schema
  apply getTable_createTable_some
  apply getTable_createTable_some
  apply getTable_createTable_some
  apply getTable_createTable_some
  apply getTable_createTable_some
  apply getTable_createTable_some
  apply getTable_createTable_some
  exact h

/-- After one `init_db_schema(); migrate_db()` pass, from any starting state,
all seven tables exist and `invoice_lines` has the `highlight` column. -/
theorem initAndMigrate_establishes (db : SchemaDB) :
    (getTable (initAndMigrate db) "items").isSome = true ∧
    (getTable (initAndMigrate db) "inventory_movements").isSome = true ∧
    (getTable (initAndMigrate db) "invoices").isSome = true ∧
    (getTable (initAndMigrate db) "invoice_lines").isSome = true ∧
    (getTable (initAndMigrate db) "invoice_collections").isSome = true ∧
    (getTable (initAndMigrate db) "invoice_dues").isSome = true ∧
    (getTable (initAndMigrate db) "collections").isSome = true ∧
    table_has_column (initAndMigrate db) "invoice_lines" "highlight" = true := by
  unfold initAndMigrate migrate_db
  by_cases hc : table_has_column (init_db_schema db) "invoice_lines" "highlight" = true
  · rw [if_pos hc]
    unfold table_has_column at hc ⊢
    simp only [init_db_schema, getTable_createTable] at hc ⊢
    simp at hc ⊢
    exact hc
  · rw [if_neg hc]
    unfold table_has_column at hc ⊢
    simp only [init_db_schema, getTable_createTable, getTable_addColumn] at hc ⊢
    simp at hc ⊢

/-- When every table already exists and `invoice_lines` already has the
`highlight` column, one more `init_db_schema(); migrate_db()` pass changes
nothing at all. -/
theorem initAndMigrate_fixed (s : SchemaDB)
    (h1 : (getTable s "items").isSome = true)
    (h2 : (getTable s "inventory_movements").isSome = true)
    (h3 : (getTable s "invoices").isSome = true)
    (h4 : (getTable s "invoice_lines").isSome = true)
    (h5 : (getTable s "invoice_collections").isSome = true)
    (h6 : (getTable s "invoice_dues").isSome = true)
    (h7 : (getTable s "collections").isSome = true)
    (hh : table_has_column s "invoice_lines" "highlight" = true) :
    initAndMigrate s = s := by
  unfold initAndMigrate init_db_schema
  rw [createTable_of_isSome s "items" itemsCols h1,
      createTable_of_isSome s "inventory_movements" inventoryMovementsCols h2,
      createTable_of_isSome s "invoices" invoicesCols h3,
      createTable_of_isSome s "invoice_lines" invoiceLinesCols h4,
      createTable_of_isSome s "invoice_collections" invoiceCollectionsCols h5,
      createTable_of_isSome s "invoice_dues" invoiceDuesCols h6,
      createTable_of_isSome s "collections" collectionsCols h7]
  unfold migrate_db
  rw [if_pos hh,
      createTable_of_isSome s "invoice_collections" invoiceCollectionsCols h5,
      createTable_of_isSome s "invoice_dues" invoiceDuesCols h6]

/-- One startup pass is idempotent. -/
theorem initAndMigrate_idem (db : SchemaDB) :
    initAndMigrate (initAndMigrate db) = initAndMigrate db := by
  obtain ⟨h1, h2, h3, h4, h5, h6, h7, hh⟩ := initAndMigrate_establishes db
  exact initAndMigrate_fixed _ h1 h2 h3 h4 h5 h6 h7 hh

/-- Any positive number of startup passes equals one pass. -/
theorem initAndMigrate_iterate (db : SchemaDB) :
    ∀ n : ℕ, 1 ≤ n → initAndMigrate^[n] db = initAndMigrate db := by
  intro n
  induction n with
  | zero => intro h; exact absurd h (by decide)
  | succ k ih =>
    intro _
    rcases Nat.eq_zero_or_pos k with hk | hk
    · subst hk
      simp
    · rw [Function.iterate_succ_apply', ih hk]
      exact initAndMigrate_idem db

/-- C3: running `init_db_schema` followed by `migrate_db` N > 1 times yields
exactly the state of running the pair once (idempotence, no error, no
duplicate column), and the pass is strictly additive: every pre-existing
table is still present under its own name, unchanged — except that an
`invoice_lines` table lacking `highlight` gains exactly that one column at
the end of its column list, each existing row extended with the default 0
and otherwise untouched. -/
theorem migration_idempotent_and_additive (db : SchemaDB) (n : ℕ) (hn : 1 ≤ n) :
    initAndMigrate^[n] db = initAndMigrate db ∧
    ∀ name T, getTable db name = some T →
      getTable (initAndMigrate db) name =
        some (if name = "invoice_lines" ∧ T.columns.contains "highlight" = false
              then { columns := T.columns ++ ["highlight"],
                     rows := T.rows.map fun r => r ++ [Value.intV 0] }
              else T) := by
  constructor
  · exact initAndMigrate_iterate db n hn
  · intro name T hT
    have hI : getTable (init_db_schema db) name = some T := getTable_init_some db name T hT
    unfold initAndMigrate migrate_db
    by_cases hc : table_has_column (init_db_schema db) "invoice_lines" "highlight" = true
    · rw [if_pos hc]
      have hfin := getTable_createTable_some _ "invoice_dues" invoiceDuesCols _ _
        (getTable_createTable_some _ "invoice_collections" invoiceCollectionsCols _ _ hI)
      rw [hfin]
      by_cases hil : name = "invoice_lines"
      · subst hil
        have htrue : T.columns.contains "highlight" = true := by
          unfold table_has_column at hc
          rw [hI] at hc
          exact hc
        rw [if_neg]
        intro hcond
        exact absurd (htrue.symm.trans hcond.2) (by decide)
      · rw [if_neg (fun hcond => hil hcond.1)]
    · rw [if_neg hc]
      by_cases hil : name = "invoice_lines"
      · subst hil
        have hadd : getTable (addColumn (init_db_schema db) "invoice_lines" "highlight"
            (Value.intV 0)) "invoice_lines" =
            some ({ columns := T.columns ++ ["highlight"],
                    rows := T.rows.map fun r => r ++ [Value.intV 0] } : Table) := by
          rw [getTable_addColumn, if_pos rfl, hI]
          rfl
        have hfin := getTable_createTable_some _ "invoice_dues" invoiceDuesCols _ _
          (getTable_createTable_some _ "invoice_collections" invoiceCollectionsCols _ _ hadd)
        rw [hfin]
        have hcf : T.columns.contains "highlight" = false := by
          unfold table_has_column at hc
          rw [hI] at hc
          exact (Bool.not_eq_true _) ▸ hc
        rw [if_pos ⟨rfl, hcf⟩]
      · have hadd : getTable (addColumn (init_db_schema db) "invoice_lines" "highlight"
            (Value.intV 0)) name = some T := by
          rw [getTable_addColumn, if_neg hil]
          exact hI
        have hfin := getTable_createTable_some _ "invoice_dues" invoiceDuesCols _ _
          (getTable_createTable_some _ "invoice_collections" invoiceCollectionsCols _ _ hadd)
        rw [hfin]
        rw [if_neg (fun hcond => hil hcond.1)]

/-- Witness for C3: two startup passes over an old database whose
`invoice_lines` table has no `highlight` column. -/
theorem migration_idempotent_and_additive_witness :
    1 ≤ 2 ∧
    (initAndMigrate^[2] Ex.oldDB = initAndMigrate Ex.oldDB ∧
     ∀ name T, getTable Ex.oldDB name = some T →
       getTable (initAndMigrate Ex.oldDB) name =
         some (if name = "invoice_lines" ∧ T.columns.contains "highlight" = false
               then { columns := T.columns ++ ["highlight"],
                      rows := T.rows.map fun r => r ++ [Value.intV 0] }
               else T)) :=
  ⟨by decide, migration_idempotent_and_additive Ex.oldDB 2 (by decide)⟩

end SchemaM
